import Mathlib

/-!
Verification of the news-avatar video pipeline.

This file gives a shallow embedding, in Lean, of the Python modules
`app/avatar.py`, `app/scraper.py`, `app/script_generator.py` and
`app/main.py`, and proves properties of the embedded code.

Modelling conventions:
* A Python exception escaping a function is modelled by `Except`.
  `ValueError` and `TimeoutError` become the constructors of `PyExn`.
* An HTTP interaction is an explicit input: a submission response is an
  `HttpResult`; the sequence of status-poll outcomes is a function
  `Nat → PollOutcome` giving the outcome of the j-th poll.
* `time.sleep(5)` advances a numeric `elapsed` counter by 5; the code's
  `elapsed = time.time() - start_time` check becomes a check of that
  counter (remote calls themselves are modelled as instantaneous).
* Python falsiness of an optional string (`if not x`) is `falsyStr`.
* Python `str.endswith('.')`, `str.startswith(p)`, `p in s` and
  `s.lower()` are modelled on the character list `String.data`
  (`endsWithPeriod`, `startsWithStr`, `containsSub`, `lowerStr`).
-/

/-- Exceptions of the Python code that matter here: `ValueError msg` and
`TimeoutError msg` (`str(e)` of each is its `msg`). -/
inductive PyExn where
  | valueError (msg : String)
  | timeoutError (msg : String)
deriving DecidableEq, Repr

/-- `str(e)` of a modelled Python exception. -/
def pyMsg : PyExn → String
  | .valueError m => m
  | .timeoutError m => m

/-- Outcome of one `GET /talks/{id}` status poll in `_wait_for_video`:
either the request raised `requests.exceptions.RequestException`
(connection error or, via `raise_for_status`, a non-2xx response), or a
JSON body with optional `status`, `result_url` and
`error.description` fields. -/
inductive PollOutcome where
  | transportFailure
  | response (status : Option String) (result_url : Option String)
      (error_description : Option String)
deriving DecidableEq, Repr

/-- The JSON-absent-or-empty test `if not x` of Python on an optional
string field. -/
def falsyStr : Option String → Bool
  | none => true
  | some s => s == ""

/-- The message of the `TimeoutError` raised by `_wait_for_video`. -/
def timeoutMsg (maxWait : Nat) : String :=
  "Video generation exceeded " ++ toString maxWait ++ "s timeout"

/-- The polling loop body of `AvatarVideoGenerator._wait_for_video`
(`app/avatar.py`, lines 139-181), started at poll index `i` with `elapsed`
time-units spent.  Each iteration first checks `elapsed > max_wait_seconds`
(raising `TimeoutError`), then performs one poll: a transport failure is
caught, logged, and followed by `time.sleep(5)` and `continue`; status
`done` returns `result_url` (raising `ValueError` when it is falsy); status
`error` raises `ValueError` with the reported description (default
`Unknown error`); statuses `created`/`started` sleep 5 and continue; any
other status logs a warning, sleeps 5 and continues. -/
def wait_for_video_from (poll : Nat → PollOutcome) (maxWait : Nat)
    (i elapsed : Nat) : Except PyExn String :=
  if _h : elapsed > maxWait then
    .error (.timeoutError (timeoutMsg maxWait))
  else
    match poll i with
    | .transportFailure => wait_for_video_from poll maxWait (i + 1) (elapsed + 5)
    | .response st url err =>
      if st = some "done" then
        if falsyStr url then
          .error (.valueError "No video URL in completed response")
        else
          .ok (url.getD "")
      else if st = some "error" then
        .error (.valueError ("Video generation failed: " ++ err.getD "Unknown error"))
      else if st = some "created" ∨ st = some "started" then
        wait_for_video_from poll maxWait (i + 1) (elapsed + 5)
      else
        wait_for_video_from poll maxWait (i + 1) (elapsed + 5)
termination_by maxWait + 1 - elapsed
decreasing_by all_goals omega

/-- `AvatarVideoGenerator._wait_for_video(talk_id, max_wait_seconds)`:
the polling loop started at the first poll with no time elapsed. -/
def wait_for_video (poll : Nat → PollOutcome) (maxWait : Nat := 300) :
    Except PyExn String :=
  wait_for_video_from poll maxWait 0 0

/-- A poll outcome is non-terminal when it keeps the loop polling: a
transport failure, or a response whose status is neither `done` nor
`error` (`created`, `started`, or any unrecognized status). -/
def NonTerminal : PollOutcome → Prop
  | .transportFailure => True
  | .response st _ _ => st ≠ some "done" ∧ st ≠ some "error"

/-- Outcome of the `POST /talks` call in `_create_talk`: either the
request raised a connection-level `RequestException` with message `msg`,
or an HTTP response arrived with a status code and a JSON body whose
optional `id` field is `talkId`. -/
inductive HttpResult where
  | connError (msg : String)
  | response (statusCode : Nat) (talkId : Option String)
deriving DecidableEq, Repr

/-- `str(e)` of the `requests.exceptions.HTTPError` that
`response.raise_for_status()` raises for a 4xx/5xx status code (its exact
wording is irrelevant to the code under verification; only the code's
`"D-ID API error: " + str(e)` wrapping matters). -/
def httpErrorStr (code : Nat) : String :=
  toString code ++ " Error"

/-- `AvatarVideoGenerator._create_talk` (`app/avatar.py`, lines 66-121).
Inside a `try` that catches only `RequestException`: a 401 status raises
`ValueError` for bad credentials (not a `RequestException`, so it
escapes as is); `raise_for_status()` raises `HTTPError` on any 4xx/5xx
status, which the `except` re-raises as `ValueError("D-ID API error: ...")`,
as it does a connection error; otherwise a falsy `id` field raises
`ValueError("No talk ID returned from D-ID API")`, and a non-falsy `id`
is returned. -/
def create_talk : HttpResult → Except PyExn String
  | .connError m => .error (.valueError ("D-ID API error: " ++ m))
  | .response code tid =>
    if code = 401 then
      .error (.valueError "D-ID authentication failed. Check API key.")
    else if 400 ≤ code ∧ code < 600 then
      .error (.valueError ("D-ID API error: " ++ httpErrorStr code))
    else if falsyStr tid then
      .error (.valueError "No talk ID returned from D-ID API")
    else
      .ok (tid.getD "")

/-- `AvatarVideoGenerator.generate_video` (`app/avatar.py`, lines 35-64):
runs `_create_talk` and (when `wait_for_completion`) `_wait_for_video`
inside a `try` whose `except Exception` re-raises every failure as
`ValueError("Failed to generate video: " + str(e))`. -/
def generate_video (createResp : HttpResult) (poll : Nat → PollOutcome)
    (wait_for_completion : Bool := true) (maxWait : Nat := 300) :
    Except PyExn String :=
  let inner : Except PyExn String :=
    match create_talk createResp with
    | .error e => .error e
    | .ok talk_id =>
      if wait_for_completion then
        wait_for_video poll maxWait
      else
        .ok ("Video generation in progress. Talk ID: " ++ talk_id)
  match inner with
  | .ok u => .ok u
  | .error e => .error (.valueError ("Failed to generate video: " ++ pyMsg e))

/-- A concrete poll schedule read off a finite list; polls beyond the end
of the list are transport failures (irrelevant for runs that terminate
within the list). -/
def listPoll (l : List PollOutcome) (j : Nat) : PollOutcome :=
  l.getD j .transportFailure

/-- Abbreviation for a poll response with the given status string. -/
def mkResp (st : String) (url err : Option String) : PollOutcome :=
  .response (some st) url err

-- Helper: a poll schedule that is everywhere non-terminal drives the
-- wait loop to the timeout, whatever the start index and elapsed time.
theorem wait_nonterminal_timeout (poll : Nat → PollOutcome) (maxWait : Nat)
    (hp : ∀ j, NonTerminal (poll j)) :
    ∀ fuel i elapsed, maxWait + 1 - elapsed ≤ fuel →
      wait_for_video_from poll maxWait i elapsed =
        .error (.timeoutError (timeoutMsg maxWait)) := by
  intro fuel
  induction fuel with
  | zero =>
    intro i elapsed hf
    rw [wait_for_video_from]
    have : elapsed > maxWait := by omega
    simp [this]
  | succ n ih =>
    intro i elapsed hf
    rw [wait_for_video_from]
    by_cases h : elapsed > maxWait
    · simp [h]
    · simp only [h, dite_false]
      have hnt := hp i
      cases hpoll : poll i with
      | transportFailure =>
        exact ih (i + 1) (elapsed + 5) (by omega)
      | response st url err =>
        rw [hpoll] at hnt
        obtain ⟨hd, he⟩ := hnt
        simp only [hd, he, if_false]
        split
        · exact ih (i + 1) (elapsed + 5) (by omega)
        · exact ih (i + 1) (elapsed + 5) (by omega)

/-- C1: behaviour of the render wait loop `_wait_for_video` on poll
sequences: (a) `[created, started, done(url=X)]` returns `X`;
(b) any unrecognized status is handled exactly like `created`/`started`
(poll again after the 5-unit sleep); (c) `[started, error(detail=D)]`
fails with the render `ValueError` carrying `D`; (d) a `done` response
with no `result_url` fails with the protocol `ValueError`; (e) a schedule
of only non-terminal responses fails with `TimeoutError` (and no other
error kind). -/
theorem C1_wait_loop_scenarios :
    (∀ X : String, X ≠ "" →
      wait_for_video (listPoll [mkResp "created" none none,
        mkResp "started" none none, mkResp "done" (some X) none]) 300 = .ok X) ∧
    (∀ (poll : Nat → PollOutcome) (maxWait i elapsed : Nat)
        (st url err : Option String),
      poll i = .response st url err → st ≠ some "done" → st ≠ some "error" →
      ¬ elapsed > maxWait →
      wait_for_video_from poll maxWait i elapsed =
        wait_for_video_from poll maxWait (i + 1) (elapsed + 5)) ∧
    (∀ D : String,
      wait_for_video (listPoll [mkResp "started" none none,
        mkResp "error" none (some D)]) 300 =
        .error (.valueError ("Video generation failed: " ++ D))) ∧
    (wait_for_video (listPoll [mkResp "done" none none]) 300 =
      .error (.valueError "No video URL in completed response")) ∧
    (∀ (poll : Nat → PollOutcome) (maxWait : Nat),
      (∀ j, NonTerminal (poll j)) →
      wait_for_video poll maxWait =
        .error (.timeoutError (timeoutMsg maxWait))) := by
  refine ⟨?_, ?_, ?_, ?_, ?_⟩
  · intro X hX
    rw [wait_for_video, wait_for_video_from]
    norm_num [listPoll, mkResp]
    rw [wait_for_video_from]
    norm_num [listPoll, mkResp]
    rw [wait_for_video_from]
    norm_num [listPoll, mkResp, falsyStr]
    simp [hX]
  · intro poll maxWait i elapsed st url err hpoll hd he hle
    conv_lhs => rw [wait_for_video_from]
    simp only [hle, dite_false, hpoll, hd, he, if_false]
    split
    · rfl
    · rfl
  · intro D
    rw [wait_for_video, wait_for_video_from]
    norm_num [listPoll, mkResp]
    rw [wait_for_video_from]
    norm_num [listPoll, mkResp, Option.getD]
    rw [if_neg (by decide), if_neg (by decide), if_neg (by decide)]
  · rw [wait_for_video, wait_for_video_from]
    norm_num [listPoll, mkResp, falsyStr]
  · intro poll maxWait hp
    exact wait_nonterminal_timeout poll maxWait hp (maxWait + 1) 0 0 (by omega)

/-- Witness for C1 at concrete inputs: scenario (a) with `X = "http://v"`,
scenario (b) with an unrecognized status `"queued"`, and scenario (e)
with an all-transport-failure schedule and `max_wait = 7`. -/
theorem C1_wait_loop_scenarios_witness :
    wait_for_video (listPoll [mkResp "created" none none,
        mkResp "started" none none, mkResp "done" (some "http://v") none]) 300 =
      .ok "http://v" ∧
    wait_for_video_from (listPoll [mkResp "queued" none none]) 300 0 0 =
      wait_for_video_from (listPoll [mkResp "queued" none none]) 300 1 5 ∧
    wait_for_video (fun _ => .transportFailure) 7 =
      .error (.timeoutError (timeoutMsg 7)) :=
  ⟨C1_wait_loop_scenarios.1 "http://v" (by decide),
   C1_wait_loop_scenarios.2.1 (listPoll [mkResp "queued" none none]) 300 0 0
     (some "queued") none none (by decide) (by decide) (by decide) (by decide),
   C1_wait_loop_scenarios.2.2.2.2 (fun _ => .transportFailure) 7
     (fun _ => trivial)⟩

/-- C3: a transport failure while polling (connection error or, via
`raise_for_status`, a non-2xx poll response) is swallowed: within the
time budget the loop's value is unchanged except that polling resumes at
the next poll after the fixed 5-unit sleep; and a schedule of only
transport failures surfaces solely as the `TimeoutError` once `max_wait`
is exceeded. -/
theorem C3_transport_failures_swallowed :
    (∀ (poll : Nat → PollOutcome) (maxWait i elapsed : Nat),
      poll i = .transportFailure → ¬ elapsed > maxWait →
      wait_for_video_from poll maxWait i elapsed =
        wait_for_video_from poll maxWait (i + 1) (elapsed + 5)) ∧
    (∀ (poll : Nat → PollOutcome) (maxWait : Nat),
      (∀ j, poll j = .transportFailure) →
      wait_for_video poll maxWait =
        .error (.timeoutError (timeoutMsg maxWait))) := by
  constructor
  · intro poll maxWait i elapsed hpoll hle
    conv_lhs => rw [wait_for_video_from]
    simp [hle, hpoll]
  · intro poll maxWait hp
    refine wait_nonterminal_timeout poll maxWait ?_ (maxWait + 1) 0 0 (by omega)
    intro j
    rw [hp j]
    trivial

/-- Witness for C3 at concrete inputs: one swallowed transport failure at
poll 0 of a 300-unit budget, and an all-transport-failure schedule with a
12-unit budget ending in the `TimeoutError`. -/
theorem C3_transport_failures_swallowed_witness :
    wait_for_video_from (fun _ => .transportFailure) 300 0 0 =
      wait_for_video_from (fun _ => .transportFailure) 300 1 5 ∧
    wait_for_video (fun _ => .transportFailure) 12 =
      .error (.timeoutError (timeoutMsg 12)) :=
  ⟨C3_transport_failures_swallowed.1 (fun _ => .transportFailure) 300 0 0 rfl
     (by decide),
   C3_transport_failures_swallowed.2 (fun _ => .transportFailure) 12
     (fun _ => rfl)⟩

-- Helper: the prefix "D-ID API error: " makes the submission-error
-- message distinct from the fixed authentication-error message.
theorem did_api_error_ne_auth (m : String) :
    ("D-ID API error: " ++ m) ≠ "D-ID authentication failed. Check API key." := by
  intro h
  have h2 := congrArg String.data h
  rw [String.data_append] at h2
  simp [String.data] at h2

/-- C5: `_create_talk` fails with the authentication `ValueError` exactly
when the provider responds with HTTP 401; it fails with the submission
`ValueError` (`"D-ID API error: ..."`) on a connection error and on any
other 4xx/5xx response; it fails with the protocol `ValueError` when a
non-error response omits (or empties) the `id` field; and on a non-error
response with a non-empty `id` it returns that provider-assigned id. -/
theorem C5_create_talk_errors :
    (∀ r : HttpResult,
      create_talk r =
          .error (.valueError "D-ID authentication failed. Check API key.") ↔
        ∃ tid, r = .response 401 tid) ∧
    (∀ m : String, create_talk (.connError m) =
      .error (.valueError ("D-ID API error: " ++ m))) ∧
    (∀ (code : Nat) (tid : Option String), code ≠ 401 → 400 ≤ code → code < 600 →
      create_talk (.response code tid) =
        .error (.valueError ("D-ID API error: " ++ httpErrorStr code))) ∧
    (∀ (code : Nat) (tid : Option String), ¬ (400 ≤ code ∧ code < 600) →
      falsyStr tid = true →
      create_talk (.response code tid) =
        .error (.valueError "No talk ID returned from D-ID API")) ∧
    (∀ (code : Nat) (t : String), ¬ (400 ≤ code ∧ code < 600) → t ≠ "" →
      create_talk (.response code (some t)) = .ok t) := by
  refine ⟨?_, ?_, ?_, ?_, ?_⟩
  · intro r
    constructor
    · intro h
      cases r with
      | connError m =>
        exfalso
        simp only [create_talk, Except.error.injEq, PyExn.valueError.injEq] at h
        exact did_api_error_ne_auth m h
      | response code tid =>
        refine ⟨tid, ?_⟩
        by_cases hc : code = 401
        · rw [hc]
        · exfalso
          simp only [create_talk, hc, if_false] at h
          split at h
          · simp only [Except.error.injEq, PyExn.valueError.injEq] at h
            exact did_api_error_ne_auth _ h
          · split at h
            · simp at h
            · simp at h
    · rintro ⟨tid, rfl⟩
      simp [create_talk]
  · intro m
    rfl
  · intro code tid h401 h4 h6
    simp [create_talk, h401, h4, h6]
  · intro code tid hc hf
    have h401 : code ≠ 401 := by omega
    simp [create_talk, h401, hc, hf]
  · intro code t hc ht
    have h401 : code ≠ 401 := by omega
    have hf : falsyStr (some t) = false := by
      simp [falsyStr, ht]
    simp [create_talk, h401, hc, hf]

/-- Witness for C5 at concrete inputs: HTTP 401, a connection error, an
HTTP 500, a 2xx response with no `id`, and a 2xx response with id
`"tlk_1"`. -/
theorem C5_create_talk_errors_witness :
    create_talk (.response 401 none) =
      .error (.valueError "D-ID authentication failed. Check API key.") ∧
    create_talk (.connError "boom") =
      .error (.valueError ("D-ID API error: " ++ "boom")) ∧
    create_talk (.response 500 none) =
      .error (.valueError ("D-ID API error: " ++ httpErrorStr 500)) ∧
    create_talk (.response 201 none) =
      .error (.valueError "No talk ID returned from D-ID API") ∧
    create_talk (.response 201 (some "tlk_1")) = .ok "tlk_1" :=
  ⟨(C5_create_talk_errors.1 (.response 401 none)).2 ⟨none, rfl⟩,
   C5_create_talk_errors.2.1 "boom",
   C5_create_talk_errors.2.2.1 500 none (by decide) (by decide) (by decide),
   C5_create_talk_errors.2.2.2.1 201 none (by decide) (by decide),
   C5_create_talk_errors.2.2.2.2 201 "tlk_1" (by decide) (by decide)⟩

/-- C9: every failure inside `generate_video` — submission failures from
`_create_talk` and the `TimeoutError`, render-error and missing-url
failures from `_wait_for_video` — is caught by the `except Exception`
clause and re-raised as a `ValueError` embedding the original message, so
no `TimeoutError` (nor any non-`ValueError` exception) ever escapes
`generate_video`. -/
theorem C9_generate_video_wraps_all_errors :
    ∀ (createResp : HttpResult) (poll : Nat → PollOutcome)
      (wfc : Bool) (maxWait : Nat),
    (∀ m, generate_video createResp poll wfc maxWait ≠
      .error (.timeoutError m)) ∧
    (∀ e, generate_video createResp poll wfc maxWait = .error e →
      ∃ orig, e = .valueError ("Failed to generate video: " ++ pyMsg orig) ∧
        (create_talk createResp = .error orig ∨
          (wfc = true ∧ wait_for_video poll maxWait = .error orig))) ∧
    (∀ t m, create_talk createResp = .ok t →
      wait_for_video poll maxWait = .error (.timeoutError m) →
      generate_video createResp poll true maxWait =
        .error (.valueError ("Failed to generate video: " ++ m))) := by
  intro createResp poll wfc maxWait
  have hchar : ∀ w : Bool, generate_video createResp poll w maxWait =
      match create_talk createResp with
      | .error e => .error (.valueError ("Failed to generate video: " ++ pyMsg e))
      | .ok talk_id =>
        if w then
          match wait_for_video poll maxWait with
          | .ok u => .ok u
          | .error e =>
            .error (.valueError ("Failed to generate video: " ++ pyMsg e))
        else
          .ok ("Video generation in progress. Talk ID: " ++ talk_id) := by
    intro w
    rw [generate_video]
    cases hct : create_talk createResp with
    | error e0 => rfl
    | ok t =>
      cases w with
      | false => rfl
      | true => rfl
  refine ⟨?_, ?_, ?_⟩
  · intro m h
    rw [hchar wfc] at h
    cases hct : create_talk createResp with
    | error e0 => simp [hct] at h
    | ok t =>
      simp only [hct] at h
      cases wfc with
      | false => simp at h
      | true =>
        simp only [if_true] at h
        cases hwv : wait_for_video poll maxWait with
        | ok u => simp [hwv] at h
        | error e1 => simp [hwv] at h
  · intro e h
    rw [hchar wfc] at h
    cases hct : create_talk createResp with
    | error e0 =>
      simp only [hct, Except.error.injEq] at h
      exact ⟨e0, h.symm, Or.inl rfl⟩
    | ok t =>
      simp only [hct] at h
      cases hw : wfc with
      | false => simp [hw] at h
      | true =>
        simp only [hw, if_true] at h
        cases hwv : wait_for_video poll maxWait with
        | ok u => simp [hwv] at h
        | error e1 =>
          simp only [hwv, Except.error.injEq] at h
          exact ⟨e1, h.symm, Or.inr ⟨rfl, rfl⟩⟩
  · intro t m hct hwv
    rw [hchar true]
    simp only [hct, if_true, hwv, pyMsg]

/-- Witness for C9 at concrete inputs: a connection error on submission
is surfaced as the wrapping `ValueError`, and a timed-out wait (budget 3,
all polls failing) is surfaced as a `ValueError` embedding the
`TimeoutError` message. -/
theorem C9_generate_video_wraps_all_errors_witness :
    (∃ orig,
      (PyExn.valueError ("Failed to generate video: " ++ "D-ID API error: boom")) =
        .valueError ("Failed to generate video: " ++ pyMsg orig) ∧
      (create_talk (.connError "boom") = .error orig ∨
        (true = true ∧
          wait_for_video (fun _ => .transportFailure) 3 = .error orig))) ∧
    generate_video (.response 201 (some "tlk_1")) (fun _ => .transportFailure)
        true 3 =
      .error (.valueError ("Failed to generate video: " ++ timeoutMsg 3)) :=
  ⟨(C9_generate_video_wraps_all_errors (.connError "boom")
      (fun _ => .transportFailure) true 3).2.1
      (.valueError ("Failed to generate video: " ++ "D-ID API error: boom")) rfl,
   (C9_generate_video_wraps_all_errors (.response 201 (some "tlk_1"))
      (fun _ => .transportFailure) true 3).2.2
      "tlk_1" (timeoutMsg 3) rfl
      (wait_nonterminal_timeout (fun _ => .transportFailure) 3
        (fun _ => trivial) 4 0 0 (by omega))⟩

/-- An article dictionary as built by `NewsScraper._extract_article`: the
keys are always present, but `newspaper` may deliver `None` for the
parsed title or text, so those values are optional strings. -/
structure RawArticle where
  title : Option String
  content : Option String
  url : Option String
  scraped_at : String
deriving DecidableEq, Repr

/-- `NewsScraper._is_valid_article` (`app/scraper.py`, lines 158-183):
rejects a falsy or under-10-character title, a falsy or
under-200-character content, and a falsy url. -/
def is_valid_article (a : RawArticle) : Bool :=
  if falsyStr a.title = true ∨ (a.title.getD "").length < 10 then
    false
  else if falsyStr a.content = true ∨ (a.content.getD "").length < 200 then
    false
  else if falsyStr a.url = true then
    false
  else
    true

/-- The inner per-link loop of `NewsScraper.scrape_articles`
(`app/scraper.py`, lines 57-72): each link yields either an extraction
failure (caught, logged, `continue`) or an article dictionary, appended
when `_is_valid_article` accepts it; the loop breaks once `num` articles
are held. -/
def scrape_source (num : Nat) (acc : List RawArticle) :
    List (Except String RawArticle) → List RawArticle
  | [] => acc
  | outcome :: rest =>
    if num ≤ acc.length then
      acc
    else
      match outcome with
      | .error _ => scrape_source num acc rest
      | .ok art =>
        if is_valid_article art then
          scrape_source num (acc ++ [art]) rest
        else
          scrape_source num acc rest

/-- The outer per-source loop of `NewsScraper.scrape_articles`
(`app/scraper.py`, lines 45-76): sources are tried in order until `num`
articles are held (a failure of `_get_article_links` is modelled by a
source contributing an empty outcome list). -/
def scrape_sources (num : Nat) (acc : List RawArticle) :
    List (List (Except String RawArticle)) → List RawArticle
  | [] => acc
  | src :: rest =>
    if num ≤ acc.length then
      acc
    else
      scrape_sources num (scrape_source num acc src) rest

/-- `NewsScraper.scrape_articles(num_articles)` (`app/scraper.py`, lines
28-79): runs the source loop from an empty accumulator and returns
`articles[:num_articles]`. -/
def scrape_articles (sources : List (List (Except String RawArticle)))
    (num_articles : Nat := 5) : List RawArticle :=
  (scrape_sources num_articles [] sources).take num_articles

-- Helper: every article the per-link loop adds to the accumulator has
-- passed `_is_valid_article`.
theorem scrape_source_valid (num : Nat)
    (outcomes : List (Except String RawArticle)) :
    ∀ acc, (∀ a ∈ acc, is_valid_article a = true) →
      ∀ a ∈ scrape_source num acc outcomes, is_valid_article a = true := by
  induction outcomes with
  | nil => intro acc hacc; exact hacc
  | cons o rest ih =>
    intro acc hacc a ha
    cases o with
    | error m =>
      rw [scrape_source] at ha
      by_cases hlen : num ≤ acc.length
      · rw [if_pos hlen] at ha
        exact hacc a ha
      · rw [if_neg hlen] at ha
        exact ih acc hacc a ha
    | ok art =>
      rw [scrape_source] at ha
      by_cases hlen : num ≤ acc.length
      · rw [if_pos hlen] at ha
        exact hacc a ha
      · rw [if_neg hlen] at ha
        by_cases hv : is_valid_article art = true
        · simp only [hv, if_true] at ha
          refine ih (acc ++ [art]) ?_ a ha
          intro b hb
          rcases List.mem_append.mp hb with hb1 | hb2
          · exact hacc b hb1
          · rwa [List.mem_singleton.mp hb2]
        · simp only [Bool.not_eq_true] at hv
          simp only [hv, Bool.false_eq_true, if_false] at ha
          exact ih acc hacc a ha

-- Helper: every article the source loop accumulates has passed
-- `_is_valid_article`.
theorem scrape_sources_valid (num : Nat)
    (sources : List (List (Except String RawArticle))) :
    ∀ acc, (∀ a ∈ acc, is_valid_article a = true) →
      ∀ a ∈ scrape_sources num acc sources, is_valid_article a = true := by
  induction sources with
  | nil => intro acc hacc; exact hacc
  | cons src rest ih =>
    intro acc hacc a ha
    rw [scrape_sources] at ha
    by_cases hlen : num ≤ acc.length
    · rw [if_pos hlen] at ha
      exact hacc a ha
    · rw [if_neg hlen] at ha
      exact ih (scrape_source num acc src)
        (scrape_source_valid num src acc hacc) a ha

-- Helper: `scrape_articles` returns at most `num_articles` articles, and
-- every article it returns has passed `_is_valid_article`.
theorem scrape_articles_bound_valid
    (sources : List (List (Except String RawArticle))) (num : Nat) :
    (scrape_articles sources num).length ≤ num ∧
      ∀ a ∈ scrape_articles sources num, is_valid_article a = true := by
  constructor
  · rw [scrape_articles]
    exact List.length_take_le num (scrape_sources num [] sources)
  · intro a ha
    rw [scrape_articles] at ha
    exact scrape_sources_valid num sources [] (by intro b hb; cases hb)
      a (List.mem_of_mem_take ha)

/-- C8: for every `num_articles` and every sequence of per-source,
per-link extraction outcomes, `scrape_articles` returns at most
`num_articles` articles, each of which satisfies the validity checks;
and the `_is_valid_article` check is exactly: title present with length
at least 10, content present with length at least 200, and a non-empty
url. -/
theorem C8_scrape_articles_valid :
    (∀ (sources : List (List (Except String RawArticle))) (num : Nat),
      (scrape_articles sources num).length ≤ num ∧
        ∀ a ∈ scrape_articles sources num, is_valid_article a = true) ∧
    (∀ a : RawArticle, is_valid_article a = true ↔
      ((∃ t, a.title = some t ∧ 10 ≤ t.length) ∧
       (∃ c, a.content = some c ∧ 200 ≤ c.length) ∧
       (∃ u, a.url = some u ∧ u ≠ ""))) := by
  constructor
  · exact scrape_articles_bound_valid
  · intro a
    obtain ⟨t, c, u, s⟩ := a
    constructor
    · intro h
      rw [is_valid_article] at h
      by_cases h1 : falsyStr t = true ∨ (t.getD "").length < 10
      · rw [if_pos h1] at h
        cases h
      · rw [if_neg h1] at h
        by_cases h2 : falsyStr c = true ∨ (c.getD "").length < 200
        · rw [if_pos h2] at h
          cases h
        · rw [if_neg h2] at h
          by_cases h3 : falsyStr u = true
          · rw [if_pos h3] at h
            cases h
          · push_neg at h1 h2
            obtain ⟨h1f, h1l⟩ := h1
            obtain ⟨h2f, h2l⟩ := h2
            cases t with
            | none => exact absurd rfl h1f
            | some tv =>
              cases c with
              | none => exact absurd rfl h2f
              | some cv =>
                cases u with
                | none => exact absurd rfl h3
                | some uv =>
                  simp only [Option.getD_some] at h1l h2l
                  refine ⟨⟨tv, rfl, by omega⟩, ⟨cv, rfl, by omega⟩,
                    ⟨uv, rfl, ?_⟩⟩
                  intro he
                  subst he
                  exact h3 rfl
    · rintro ⟨⟨tv, ht, htl⟩, ⟨cv, hc, hcl⟩, ⟨uv, hu, hul⟩⟩
      subst ht hc hu
      rw [is_valid_article]
      have ht1 : ¬(falsyStr (some tv) = true ∨
          (Option.getD (some tv) "").length < 10) := by
        rintro (hf | hl)
        · simp only [falsyStr, beq_iff_eq] at hf
          subst hf
          simp at htl
        · simp only [Option.getD_some] at hl
          omega
      have hc1 : ¬(falsyStr (some cv) = true ∨
          (Option.getD (some cv) "").length < 200) := by
        rintro (hf | hl)
        · simp only [falsyStr, beq_iff_eq] at hf
          subst hf
          simp at hcl
        · simp only [Option.getD_some] at hl
          omega
      have hu1 : ¬(falsyStr (some uv) = true) := by
        simp only [falsyStr, beq_iff_eq]
        exact hul
      rw [if_neg ht1, if_neg hc1, if_neg hu1]

/-- A sample scraped article used to instantiate theorems: 19-character
title, 200-character content, non-empty url. -/
def sampleArticle : RawArticle :=
  { title := some "Breaking news today"
    content := some (String.mk (List.replicate 200 'a'))
    url := some "http://example.com/a"
    scraped_at := "2026-10-12T00:00:00" }

set_option maxRecDepth 4000 in
/-- Witness for C8 at a concrete input: a single source whose single link
extracts `sampleArticle`. -/
theorem C8_scrape_articles_valid_witness :
    (scrape_articles [[.ok sampleArticle]] 5).length ≤ 5 ∧
    is_valid_article sampleArticle = true ∧
    ((∃ t, sampleArticle.title = some t ∧ 10 ≤ t.length) ∧
     (∃ c, sampleArticle.content = some c ∧ 200 ≤ c.length) ∧
     (∃ u, sampleArticle.url = some u ∧ u ≠ "")) :=
  ⟨(C8_scrape_articles_valid.1 [[.ok sampleArticle]] 5).1,
   (C8_scrape_articles_valid.1 [[.ok sampleArticle]] 5).2 sampleArticle
     (by decide),
   (C8_scrape_articles_valid.2 sampleArticle).mp (by decide)⟩

/-- Python `s.startswith(p)`, on the character lists of the strings. -/
def startsWithStr (s p : String) : Bool :=
  p.data.isPrefixOf s.data

/-- Python `s.lower()`, on the character list of the string. -/
def lowerStr (s : String) : String :=
  String.mk (s.data.map Char.toLower)

/-- Python `p in s` (substring containment), on the character lists. -/
def containsSub (s p : String) : Bool :=
  s.data.tails.any (fun t => p.data.isPrefixOf t)

/-- The link loop of `NewsScraper._get_article_links` (`app/scraper.py`,
lines 104-123).  For each candidate `href`: a leading-slash href is made
absolute with `urljoin` (modelled as an uninterpreted function); the
filter keeps an href when
`(href.startswith('http') and 'article' in href.lower()) or
'news' in href.lower() or '/story/' in href or '/20' in href`
(the `and` binds tighter than the `or` chain, exactly as in the source);
a kept href is appended unless already present, and the loop breaks once
`max_links` links are held. -/
def links_loop (urljoin : String → String → String) (source_url : String)
    (max_links : Nat) : List String → List String → List String
  | [], links => links
  | href0 :: rest, links =>
    let href := if startsWithStr href0 "/" then urljoin source_url href0
      else href0
    if (startsWithStr href "http" && containsSub (lowerStr href) "article")
        || containsSub (lowerStr href) "news"
        || containsSub href "/story/"
        || containsSub href "/20" then
      if href ∈ links then
        links_loop urljoin source_url max_links rest links
      else
        if max_links ≤ (links ++ [href]).length then
          links ++ [href]
        else
          links_loop urljoin source_url max_links rest (links ++ [href])
    else
      links_loop urljoin source_url max_links rest links

/-- `NewsScraper._get_article_links(source_url, max_links)` on the hrefs
found in the fetched homepage (a fetch/parse failure is modelled by an
empty href list, matching the `return []` of the `except` clause). -/
def get_article_links (urljoin : String → String → String)
    (source_url : String) (hrefs : List String) (max_links : Nat := 10) :
    List String :=
  links_loop urljoin source_url max_links hrefs []

/-- C10: the href `"latest-news-today"` does not start with `"http"` (nor
with `"/"`, so it is not made absolute), yet `_get_article_links` returns
it: the `startswith('http')` guard is conjoined only with the `'article'`
substring test, and the `'news'` substring test admits the link
regardless of that guard. -/
theorem C10_relative_href_admitted :
    ∀ (urljoin : String → String → String) (source_url : String),
    get_article_links urljoin source_url ["latest-news-today"] 10 =
        ["latest-news-today"] ∧
      startsWithStr "latest-news-today" "http" = false ∧
      startsWithStr "latest-news-today" "/" = false ∧
      containsSub (lowerStr "latest-news-today") "news" = true := by
  intro urljoin source_url
  refine ⟨?_, by decide, by decide, by decide⟩
  rw [get_article_links, links_loop]
  simp only [show startsWithStr "latest-news-today" "/" = false by decide,
    Bool.false_eq_true, if_false]
  rw [if_pos (by decide)]
  rw [if_neg (show ¬ ("latest-news-today" ∈ ([] : List String)) by decide)]
  rw [if_neg (by decide)]
  rw [links_loop]
  rfl

/-- A summarized article as assembled by the orchestrator:
`{'title': ..., 'url': ..., 'summary': ...}` (title and url are carried
over from the scraped dictionary, so they remain optional strings). -/
structure SummarizedArticle where
  title : Option String
  url : Option String
  summary : String
deriving DecidableEq, Repr

/-- Python `s.split('.')`: split a character list on every `'.'`,
keeping empty fragments (so `''.split('.') == ['']`). -/
def splitDot : List Char → List (List Char)
  | [] => [[]]
  | c :: cs =>
    if c = '.' then
      [] :: splitDot cs
    else
      match splitDot cs with
      | [] => [[c]]
      | l :: ls => (c :: l) :: ls

/-- Python `s.strip()`: drop whitespace from both ends of the character
list. -/
def stripStr (s : String) : String :=
  String.mk
    (((s.data.dropWhile Char.isWhitespace).reverse.dropWhile
      Char.isWhitespace).reverse)

/-- Python `s.endswith('.')`: the last character is a period. -/
def endsWithPeriod (s : String) : Bool :=
  s.data.getLast? == some '.'

/-- The per-article truncation of
`ScriptGenerator._create_headlines_short` (`app/script_generator.py`,
lines 82-88): `summary.split('.')`, keep the first two fragments, rejoin
with `'. '`, strip, and append a trailing `'.'` when the result is
non-empty and does not already end with one. -/
def short_summary (summary : String) : String :=
  let sentences := (splitDot summary.data).map String.mk
  let short := stripStr (String.intercalate ". " (sentences.take 2))
  if short ≠ "" ∧ endsWithPeriod short = false then
    short ++ "."
  else
    short

/-- The `for idx, article in enumerate(articles, 1)` loop of
`_create_headlines_short` (`app/script_generator.py`, lines 81-96): both
branches of the `if idx == 1` produce the same shortened summary, which
is appended to the headline list. -/
def headlines_loop : Nat → List SummarizedArticle → List String
  | _, [] => []
  | idx, a :: rest =>
    let short := short_summary a.summary
    let headline := if idx = 1 then short else short
    headline :: headlines_loop (idx + 1) rest

/-- `ScriptGenerator._create_headlines_short`: `" ".join(headlines)`. -/
def create_headlines_short (articles : List SummarizedArticle) : String :=
  String.intercalate " " (headlines_loop 1 articles)

/-- `ScriptGenerator._create_opening_short` (`app/script_generator.py`,
lines 59-67), with the formatted current date as input. -/
def create_opening_short (current_date : String) : String :=
  "Here are today\x27s top stories for " ++ current_date ++ "."

/-- `ScriptGenerator._create_closing_short` (`app/script_generator.py`,
lines 100-107). -/
def create_closing_short : String :=
  "That\x27s your news update."

/-- `ScriptGenerator.generate_script` (`app/script_generator.py`, lines
21-57): `f"{opening} {headlines} {closing}"`.  The surrounding
`try/except` cannot fire: the body is pure string formatting. -/
def generate_script (current_date : String)
    (articles : List SummarizedArticle) : String :=
  create_opening_short current_date ++ " " ++
    create_headlines_short articles ++ " " ++ create_closing_short

-- Helper: the enumerate loop produces exactly the per-article shortened
-- summaries, in input order, whatever the starting index.
theorem headlines_loop_eq_map (articles : List SummarizedArticle) :
    ∀ idx, headlines_loop idx articles =
      articles.map (fun a => short_summary a.summary) := by
  induction articles with
  | nil => intro idx; rfl
  | cons a rest ih =>
    intro idx
    rw [headlines_loop, List.map_cons, ih (idx + 1)]
    by_cases h1 : idx = 1
    · simp [h1]
    · simp [h1]

/-- C6: for every date and every summarized-article sequence of length
n ≥ 1, the generated script is exactly one date-stamped opening line,
then the n per-article summary fragments in input order (joined by
single spaces), then exactly one closing line. -/
theorem C6_script_structure (current_date : String)
    (articles : List SummarizedArticle) (_h : 1 ≤ articles.length) :
    (articles.map fun a => short_summary a.summary).length =
        articles.length ∧
      generate_script current_date articles =
        create_opening_short current_date ++ " " ++
          String.intercalate " "
            (articles.map fun a => short_summary a.summary) ++
          " " ++ create_closing_short := by
  constructor
  · exact List.length_map articles _
  · rw [generate_script, create_headlines_short, headlines_loop_eq_map]

/-- Witness for C6 at a concrete input: two articles with summaries
`"S1."` and `"S2."`. -/
theorem C6_script_structure_witness :
    (([⟨some "A", some "u1", "S1."⟩, ⟨some "B", some "u2", "S2."⟩] :
        List SummarizedArticle).map fun a => short_summary a.summary).length =
      ([⟨some "A", some "u1", "S1."⟩, ⟨some "B", some "u2", "S2."⟩] :
        List SummarizedArticle).length ∧
    generate_script "October 12, 2026"
        [⟨some "A", some "u1", "S1."⟩, ⟨some "B", some "u2", "S2."⟩] =
      create_opening_short "October 12, 2026" ++ " " ++
        String.intercalate " "
          (([⟨some "A", some "u1", "S1."⟩, ⟨some "B", some "u2", "S2."⟩] :
            List SummarizedArticle).map fun a => short_summary a.summary) ++
        " " ++ create_closing_short :=
  C6_script_structure "October 12, 2026"
    [⟨some "A", some "u1", "S1."⟩, ⟨some "B", some "u2", "S2."⟩] (by decide)

/-- C7: for a summary with at least 3 sentence fragments (and a
non-blank first pair), the terse per-article fragment is exactly the
first two split fragments rejoined with `". "` and stripped — with a
period appended when not already present — and it always ends in a
period. -/
theorem C7_terse_truncation (s : String)
    (_h3 : 3 ≤ (splitDot s.data).length)
    (hne : stripStr (String.intercalate ". "
      (((splitDot s.data).map String.mk).take 2)) ≠ "") :
    short_summary s =
      (if endsWithPeriod (stripStr (String.intercalate ". "
          (((splitDot s.data).map String.mk).take 2))) then
        stripStr (String.intercalate ". "
          (((splitDot s.data).map String.mk).take 2))
      else
        stripStr (String.intercalate ". "
          (((splitDot s.data).map String.mk).take 2)) ++ ".") ∧
    (short_summary s).data.getLast? = some '.' := by
  rw [short_summary]
  by_cases hp : endsWithPeriod (stripStr (String.intercalate ". "
      (((splitDot s.data).map String.mk).take 2))) = true
  · rw [if_neg (by simp [hp]), if_pos hp]
    refine ⟨rfl, ?_⟩
    simpa [endsWithPeriod] using hp
  · have hp0 : endsWithPeriod (stripStr (String.intercalate ". "
        (((splitDot s.data).map String.mk).take 2))) = false := by
      simpa using hp
    rw [if_pos ⟨hne, hp0⟩, if_neg (by simp [hp0])]
    refine ⟨rfl, ?_⟩
    rw [String.data_append]
    exact List.getLast?_concat _

/-- Witness for C7 at the concrete summary `"Aaa. Bbb. Ccc."` (four
split fragments, so at least 3 sentences). -/
theorem C7_terse_truncation_witness :
    short_summary "Aaa. Bbb. Ccc." =
      (if endsWithPeriod (stripStr (String.intercalate ". "
          (((splitDot "Aaa. Bbb. Ccc.".data).map String.mk).take 2))) then
        stripStr (String.intercalate ". "
          (((splitDot "Aaa. Bbb. Ccc.".data).map String.mk).take 2))
      else
        stripStr (String.intercalate ". "
          (((splitDot "Aaa. Bbb. Ccc.".data).map String.mk).take 2)) ++ ".") ∧
    (short_summary "Aaa. Bbb. Ccc.").data.getLast? = some '.' :=
  C7_terse_truncation "Aaa. Bbb. Ccc." (by decide) (by decide)

/-- The `NewsVideoResponse` pydantic model of `app/main.py` (lines
75-80). -/
structure NewsVideoResponse where
  status : String
  script : String
  video_url : String
  articles : List SummarizedArticle
  generated_at : String
deriving DecidableEq, Repr

/-- The per-article summarization loop of `generate_news_video`
(`app/main.py`, lines 277-290): each article is attempted in order; a
success appends `{'title':..., 'url':..., 'summary':...}`; a failure is
logged and skipped (`continue`). -/
def summarize_step (summarize : RawArticle → Except String String) :
    List RawArticle → List SummarizedArticle
  | [] => []
  | a :: rest =>
    match summarize a with
    | .ok s => ⟨a.title, a.url, s⟩ :: summarize_step summarize rest
    | .error _ => summarize_step summarize rest

-- Helper: the summarization loop keeps exactly the successfully
-- summarized articles, in input order.
theorem summarize_step_eq_filterMap
    (summarize : RawArticle → Except String String) :
    ∀ articles : List RawArticle,
      summarize_step summarize articles = articles.filterMap (fun a =>
        match summarize a with
        | .ok s => some ⟨a.title, a.url, s⟩
        | .error _ => none) := by
  intro articles
  induction articles with
  | nil => rfl
  | cons a rest ih =>
    rw [List.filterMap_cons]
    cases h : summarize a with
    | ok s =>
      simp only [summarize_step, h, ih]
    | error m =>
      simp only [summarize_step, h, ih]

-- Helper: if every article fails to summarize, the loop yields nothing.
theorem summarize_step_all_fail
    (summarize : RawArticle → Except String String) :
    ∀ articles : List RawArticle,
      (∀ a ∈ articles, ∃ m, summarize a = .error m) →
      summarize_step summarize articles = [] := by
  intro articles
  induction articles with
  | nil => intro _; rfl
  | cons a rest ih =>
    intro h
    obtain ⟨m, hm⟩ := h a (List.mem_cons_self a rest)
    simp only [summarize_step, hm]
    exact ih (fun b hb => h b (List.mem_cons_of_mem a hb))

-- Helper: the composed script always starts with the opening line, so
-- it is never the empty string.
theorem generate_script_ne_empty (current_date : String)
    (articles : List SummarizedArticle) :
    generate_script current_date articles ≠ "" := by
  intro h
  have h2 := congrArg String.length h
  rw [generate_script, create_opening_short] at h2
  simp only [String.length_append] at h2
  rw [show ("Here are today\x27s top stories for " : String).length = 33
    from by decide] at h2
  rw [show ("" : String).length = 0 from rfl] at h2
  omega

/-- `generate_news_video` (`app/main.py`, lines 241-345), the blocking
pipeline: scrape 5 articles (fail when none), summarize per article
skipping failures (fail when none survive), compose the script (fail
when falsy), render the video (an escaped exception becomes the simple
`Internal server error: ...` failure via the outer `except Exception`;
a falsy url fails), and assemble the `NewsVideoResponse`.  A failure is
the `detail` string of the raised `HTTPException`. -/
def generate_news_video (sources : List (List (Except String RawArticle)))
    (summarize : RawArticle → Except String String)
    (createResp : HttpResult) (poll : Nat → PollOutcome)
    (current_date generated_at : String) :
    Except String NewsVideoResponse :=
  let articles := scrape_articles sources 5
  if articles.isEmpty then
    .error "Failed to scrape articles. Please try again."
  else
    let summarized_articles := summarize_step summarize articles
    if summarized_articles.isEmpty then
      .error "Failed to summarize articles. Please check API credentials."
    else
      let script := generate_script current_date summarized_articles
      if script = "" then
        .error "Failed to generate script"
      else
        match generate_video createResp poll true 300 with
        | .error e => .error ("Internal server error: " ++ pyMsg e)
        | .ok video_url =>
          if video_url = "" then
            .error "Failed to generate avatar video. Please check API credentials."
          else
            .ok ⟨"success", script, video_url, summarized_articles,
              generated_at⟩

/-- C4: the orchestrator attempts summarization per article in discovery
order and keeps exactly the successes, in order; if the scrape is
non-empty but every summarization fails, the run fails at the summarize
stage; if at least one summarization succeeds (and rendering delivers a
non-empty url), the run succeeds and its article list is exactly the
successfully summarized articles, in order. -/
theorem C4_orchestrator_partial_failure :
    (∀ (summarize : RawArticle → Except String String)
        (articles : List RawArticle),
      summarize_step summarize articles = articles.filterMap (fun a =>
        match summarize a with
        | .ok s => some ⟨a.title, a.url, s⟩
        | .error _ => none)) ∧
    (∀ sources summarize createResp poll current_date generated_at,
      scrape_articles sources 5 ≠ [] →
      (∀ a ∈ scrape_articles sources 5, ∃ m, summarize a = .error m) →
      generate_news_video sources summarize createResp poll current_date
          generated_at =
        .error "Failed to summarize articles. Please check API credentials.") ∧
    (∀ sources summarize createResp poll current_date generated_at u,
      summarize_step summarize (scrape_articles sources 5) ≠ [] →
      generate_video createResp poll true 300 = .ok u → u ≠ "" →
      generate_news_video sources summarize createResp poll current_date
          generated_at =
        .ok ⟨"success",
          generate_script current_date
            (summarize_step summarize (scrape_articles sources 5)),
          u, summarize_step summarize (scrape_articles sources 5),
          generated_at⟩) := by
  refine ⟨summarize_step_eq_filterMap, ?_, ?_⟩
  · intro sources summarize createResp poll current_date generated_at hne hall
    rw [generate_news_video]
    rw [if_neg (by simpa [List.isEmpty_iff] using hne)]
    rw [summarize_step_all_fail summarize _ hall]
    rfl
  · intro sources summarize createResp poll current_date generated_at u
      hsum hvid hu
    have harts : scrape_articles sources 5 ≠ [] := by
      intro h0
      apply hsum
      rw [h0]
      rfl
    rw [generate_news_video]
    rw [if_neg (by simpa [List.isEmpty_iff] using harts)]
    rw [if_neg (by simpa [List.isEmpty_iff] using hsum)]
    rw [if_neg (generate_script_ne_empty current_date _)]
    rw [hvid]
    simp [hu]

-- Helper: the wait loop succeeds immediately when the very first poll
-- reports `done` with a non-empty url.
theorem wait_first_done (poll : Nat → PollOutcome) (u : String)
    (hpoll : poll 0 = mkResp "done" (some u) none) (hu : u ≠ "")
    (maxWait : Nat) : wait_for_video poll maxWait = .ok u := by
  rw [wait_for_video, wait_for_video_from]
  simp [hpoll, mkResp, falsyStr, hu]

-- Helper: `generate_video` returns the url the wait loop delivered.
theorem generate_video_wait_ok (createResp : HttpResult)
    (poll : Nat → PollOutcome) (maxWait : Nat) (t u : String)
    (hct : create_talk createResp = .ok t)
    (hw : wait_for_video poll maxWait = .ok u) :
    generate_video createResp poll true maxWait = .ok u := by
  rw [generate_video]
  simp only [hct, if_true, hw]

set_option maxRecDepth 4000 in
/-- Witness for C4 at concrete inputs: one scraped article whose
summarization fails (run fails at the summarize stage), and one whose
summarization succeeds with a successful render (run succeeds over
exactly that article). -/
theorem C4_orchestrator_partial_failure_witness :
    generate_news_video [[.ok sampleArticle]] (fun _ => .error "api down")
        (.response 201 (some "tlk_1"))
        (listPoll [mkResp "done" (some "http://v") none])
        "October 12, 2026" "ts" =
      .error "Failed to summarize articles. Please check API credentials." ∧
    generate_news_video [[.ok sampleArticle]] (fun _ => .ok "S1. S2.")
        (.response 201 (some "tlk_1"))
        (listPoll [mkResp "done" (some "http://v") none])
        "October 12, 2026" "ts" =
      .ok ⟨"success",
        generate_script "October 12, 2026"
          (summarize_step (fun _ => .ok "S1. S2.")
            (scrape_articles [[.ok sampleArticle]] 5)),
        "http://v",
        summarize_step (fun _ => .ok "S1. S2.")
          (scrape_articles [[.ok sampleArticle]] 5),
        "ts"⟩ :=
  ⟨C4_orchestrator_partial_failure.2.1 [[.ok sampleArticle]]
      (fun _ => .error "api down") (.response 201 (some "tlk_1"))
      (listPoll [mkResp "done" (some "http://v") none])
      "October 12, 2026" "ts" (by decide)
      (fun a _ => ⟨"api down", rfl⟩),
   C4_orchestrator_partial_failure.2.2 [[.ok sampleArticle]]
      (fun _ => .ok "S1. S2.") (.response 201 (some "tlk_1"))
      (listPoll [mkResp "done" (some "http://v") none])
      "October 12, 2026" "ts" "http://v" (by decide)
      (generate_video_wait_ok _ _ 300 "tlk_1" "http://v" rfl
        (wait_first_done _ "http://v" rfl (by decide) 300))
      (by decide)⟩

/-- A server-sent event of the streaming endpoint
`generate_news_video_stream` (`app/main.py`, lines 119-229): a `log`
event carries a message and a progress value; the terminal events are
`complete` (status, script, video url, articles, timestamp, progress
100) and `error` (message, no progress field). -/
inductive Event where
  | log (message : String) (progress : Nat)
  | complete (status script video_url : String)
      (articles : List SummarizedArticle) (generated_at : String)
      (progress : Nat)
  | error (message : String)
deriving DecidableEq, Repr

/-- The progress field of an event, when present. -/
def progressOf : Event → Option Nat
  | .log _ p => some p
  | .complete _ _ _ _ _ p => some p
  | .error _ => none

/-- Whether an event ends the stream (`complete` or `error`). -/
def isTerminalEvent : Event → Bool
  | .log _ _ => false
  | .complete _ _ _ _ _ _ => true
  | .error _ => true

/-- The sequence of emitted progress values of an event stream. -/
def progressList (events : List Event) : List Nat :=
  events.filterMap progressOf

/-- Python `s[:n]` on a string. -/
def strTake (s : String) (n : Nat) : String :=
  String.mk (s.data.take n)

/-- Python `len(s.split())`: the number of maximal non-whitespace runs
(the word count logged for the generated script). -/
def wordsAux : List Char → List Char → List (List Char)
  | [], [] => []
  | [], w => [w.reverse]
  | c :: cs, w =>
    if Char.isWhitespace c then
      if w = [] then wordsAux cs [] else w.reverse :: wordsAux cs []
    else
      wordsAux cs (c :: w)

/-- `len(script.split())`. -/
def countWords (s : String) : Nat :=
  (wordsAux s.data []).length

/-- `str(e)` of the `TypeError` raised by `None[:60]` when a scraped
title is `None` (unreachable for validated articles, but part of the
loop body's semantics). -/
def typeErrorMsg : String :=
  "\x27NoneType\x27 object is not subscriptable"

/-- The summarization loop of `event_generator` (`app/main.py`, lines
147-168), at loop index `i` of `n` articles.  Per article: the code
first slices `article.get('title', 'Unknown')[:60]` — slicing `None`
raises `TypeError`, which the per-article `except` re-raises while
slicing `[:40]`, aborting the stream (second component `none`) — then
emits the `Summarizing article i+1/n` log at progress `30 + i*5`,
attempts summarization, and on failure emits the `Skipped` log at the
same progress and continues; a success is appended to the summarized
list. -/
def summarize_events (n : Nat)
    (summarize : RawArticle → Except String String) :
    List RawArticle → Nat → List Event × Option (List SummarizedArticle)
  | [], _ => ([], some [])
  | a :: rest, i =>
    match a.title with
    | none => ([], none)
    | some t =>
      let p := 30 + i * 5
      let ev1 := Event.log ("Summarizing article " ++ toString (i + 1) ++
        "/" ++ toString n ++ ": " ++ strTake t 60 ++ "...") p
      match summarize a with
      | .ok s =>
        let r := summarize_events n summarize rest (i + 1)
        (ev1 :: r.1, r.2.map (fun sums => ⟨a.title, a.url, s⟩ :: sums))
      | .error _ =>
        let ev2 := Event.log ("⚠ Skipped article: " ++ strTake t 40 ++
          "...") p
        let r := summarize_events n summarize rest (i + 1)
        (ev1 :: ev2 :: r.1, r.2)

/-- The tail of the stream after the Step-4 logs (`app/main.py`, lines
198-229), as a function of the outcome of `generate_video`: a raised
failure reaches the outer `except Exception` and becomes the final
`error` event with `str(e)`; a falsy url logs an error at progress 75
and fails; otherwise the success log and the final `complete` event
(progress 100) are emitted. -/
def render_tail (script : String)
    (summarized_articles : List SummarizedArticle) (generated_at : String) :
    Except PyExn String → List Event
  | .error e => [Event.error (pyMsg e)]
  | .ok video_url =>
    if video_url = "" then
      [Event.log "Error: Failed to generate avatar video" 75,
       Event.error "Failed to generate avatar video"]
    else
      [Event.log "✓ Avatar video generated successfully!" 95,
       Event.complete "success" script video_url summarized_articles
         generated_at 100]

/-- The events of `event_generator` following the summarization loop
(`app/main.py`, lines 170-229), as a function of the loop's outcome:
an aborted loop (a `None` title) reaches the outer `except` as a
`TypeError`; an empty summarized list logs at progress 50 and fails at
the summarize stage; otherwise the Step-3/Step-4 logs are emitted and
the stream ends with `render_tail`.  (The empty-script branch mirrors
the source's `if not script` check.) -/
def stream_suffix (createResp : HttpResult) (poll : Nat → PollOutcome)
    (current_date generated_at : String) :
    Option (List SummarizedArticle) → List Event
  | none => [Event.error typeErrorMsg]
  | some summarized_articles =>
    if summarized_articles.isEmpty then
      [Event.log "Error: No articles could be summarized" 50,
       Event.error "Failed to summarize articles"]
    else
      let ev4 := Event.log ("✓ Successfully summarized " ++
        toString summarized_articles.length ++ " articles") 55
      let ev5 := Event.log
        "Step 3: Generating professional news script..." 60
      let script := generate_script current_date summarized_articles
      if script = "" then
        [ev4, ev5, Event.log "Error: Failed to generate script" 60,
         Event.error "Failed to generate script"]
      else
        let ev6 := Event.log ("✓ Generated script with " ++
          toString (countWords script) ++ " words") 70
        let ev7 := Event.log
          "Step 4: Creating avatar video (this may take a moment)..." 75
        [ev4, ev5, ev6, ev7] ++
          render_tail script summarized_articles generated_at
            (generate_video createResp poll true 300)

/-- The `event_generator` of `generate_news_video_stream`
(`app/main.py`, lines 119-229): the ordered list of SSE events emitted
by one run — the initial and Step-1/Step-2 logs, the summarization-loop
events, and the post-loop events of `stream_suffix`.  A failed scrape
logs at progress 10 and ends with the scrape `error` event. -/
def event_generator (sources : List (List (Except String RawArticle)))
    (summarize : RawArticle → Except String String)
    (createResp : HttpResult) (poll : Nat → PollOutcome)
    (current_date generated_at : String) : List Event :=
  let ev0 := Event.log "Initializing generation pipeline..." 0
  let ev1 := Event.log
    "Step 1: Scraping news articles from multiple sources..." 10
  let articles := scrape_articles sources 5
  if articles.isEmpty then
    [ev0, ev1, Event.log "Error: Failed to scrape articles" 10,
      Event.error "Failed to scrape articles"]
  else
    let ev2 := Event.log ("✓ Successfully scraped " ++
      toString articles.length ++ " articles") 25
    let ev3 := Event.log "Step 2: Summarizing articles with AI..." 30
    let r := summarize_events articles.length summarize articles 0
    ([ev0, ev1, ev2, ev3] ++ r.1) ++
      stream_suffix createResp poll current_date generated_at r.2
-- Helper: the summarization loop emits only `log` events (never a
-- terminal event).
theorem summarize_events_log (n : Nat)
    (summarize : RawArticle → Except String String) :
    ∀ (arts : List RawArticle) (i : Nat),
      ∀ e ∈ (summarize_events n summarize arts i).1,
        isTerminalEvent e = false := by
  intro arts
  induction arts with
  | nil =>
    intro i e he
    cases he
  | cons a rest ih =>
    intro i e he
    rw [summarize_events] at he
    cases ht : a.title with
    | none =>
      rw [ht] at he
      cases he
    | some t =>
      rw [ht] at he
      cases hs : summarize a with
      | ok s =>
        rw [hs] at he
        simp only [List.mem_cons] at he
        rcases he with rfl | he2
        · rfl
        · exact ih (i + 1) e he2
      | error m =>
        rw [hs] at he
        simp only [List.mem_cons] at he
        rcases he with rfl | rfl | he2
        · rfl
        · rfl
        · exact ih (i + 1) e he2

-- Helper: the progress values emitted by the summarization loop are
-- non-decreasing, start at `30 + i*5`, and stay below the progress of
-- the following stage log.
theorem summarize_events_progress (n : Nat)
    (summarize : RawArticle → Except String String) :
    ∀ (arts : List RawArticle) (i : Nat),
      List.Pairwise (· ≤ ·)
        (progressList (summarize_events n summarize arts i).1) ∧
      ∀ p ∈ progressList (summarize_events n summarize arts i).1,
        30 + i * 5 ≤ p ∧ p + 5 ≤ 30 + (i + arts.length) * 5 := by
  intro arts
  induction arts with
  | nil =>
    intro i
    exact ⟨List.Pairwise.nil, fun p hp => absurd hp (List.not_mem_nil p)⟩
  | cons a rest ih =>
    intro i
    rw [summarize_events]
    cases ht : a.title with
    | none =>
      exact ⟨List.Pairwise.nil, fun p hp => absurd hp (List.not_mem_nil p)⟩
    | some t =>
      cases hs : summarize a with
      | ok s =>
        simp only [progressList, List.filterMap_cons, progressOf]
        constructor
        · rw [List.pairwise_cons]
          refine ⟨?_, (ih (i + 1)).1⟩
          intro q hq
          have := ((ih (i + 1)).2 q hq).1
          omega
        · intro p hp
          simp only [List.mem_cons] at hp
          rcases hp with rfl | hp2
          · simp only [List.length_cons]
            omega
          · have h1 := ((ih (i + 1)).2 p hp2).1
            have h2 := ((ih (i + 1)).2 p hp2).2
            simp only [List.length_cons]
            constructor
            · omega
            · omega
      | error m =>
        simp only [progressList, List.filterMap_cons, progressOf]
        constructor
        · rw [List.pairwise_cons]
          constructor
          · intro q hq
            simp only [List.mem_cons] at hq
            rcases hq with rfl | hq2
            · omega
            · have := ((ih (i + 1)).2 q hq2).1
              omega
          · rw [List.pairwise_cons]
            refine ⟨?_, (ih (i + 1)).1⟩
            intro q hq
            have := ((ih (i + 1)).2 q hq).1
            omega
        · intro p hp
          simp only [List.mem_cons] at hp
          rcases hp with rfl | rfl | hp2
          · simp only [List.length_cons]
            omega
          · simp only [List.length_cons]
            omega
          · have h1 := ((ih (i + 1)).2 p hp2).1
            have h2 := ((ih (i + 1)).2 p hp2).2
            simp only [List.length_cons]
            constructor
            · omega
            · omega

-- Helper: gluing the fixed stage progresses `0,10,25,30`, the loop
-- progresses (between 30 and 50) and the tail progresses (at least 50)
-- into one non-decreasing sequence.
theorem pairwise_branch (l2 l3 : List Nat)
    (h2 : List.Pairwise (· ≤ ·) l2) (h2lo : ∀ b ∈ l2, 30 ≤ b)
    (h2hi : ∀ b ∈ l2, b ≤ 50)
    (h3 : List.Pairwise (· ≤ ·) l3) (h3lo : ∀ c ∈ l3, 50 ≤ c) :
    List.Pairwise (· ≤ ·) (0 :: 10 :: 25 :: 30 :: (l2 ++ l3)) := by
  have hmem : ∀ b ∈ l2 ++ l3, 30 ≤ b := by
    intro b hb
    rcases List.mem_append.mp hb with h | h
    · exact h2lo b h
    · exact le_trans (by omega) (h3lo b h)
  have hglue : List.Pairwise (· ≤ ·) (l2 ++ l3) :=
    List.pairwise_append.mpr
      ⟨h2, h3, fun b hb c hc => (h2hi b hb).trans (h3lo c hc)⟩
  refine List.pairwise_cons.mpr ⟨?_, List.pairwise_cons.mpr ⟨?_,
    List.pairwise_cons.mpr ⟨?_, List.pairwise_cons.mpr ⟨hmem, hglue⟩⟩⟩⟩
  · intro b _
    exact Nat.zero_le b
  · intro b hb
    simp only [List.mem_cons] at hb
    rcases hb with rfl | rfl | hb2
    · omega
    · omega
    · exact le_trans (by omega) (hmem b hb2)
  · intro b hb
    simp only [List.mem_cons] at hb
    rcases hb with rfl | hb2
    · omega
    · exact le_trans (by omega) (hmem b hb2)

-- Helper: whatever the loop outcome, the post-loop events are a run of
-- non-terminal events (with non-decreasing progresses at least 50)
-- closed by exactly one terminal event.
theorem stream_suffix_split (createResp : HttpResult)
    (poll : Nat → PollOutcome) (current_date generated_at : String)
    (o : Option (List SummarizedArticle)) :
    ∃ sufInit term,
      stream_suffix createResp poll current_date generated_at o =
        sufInit ++ [term] ∧
      isTerminalEvent term = true ∧
      (∀ e ∈ sufInit, isTerminalEvent e = false) ∧
      List.Pairwise (· ≤ ·) (progressList (sufInit ++ [term])) ∧
      (∀ c ∈ progressList (sufInit ++ [term]), 50 ≤ c) := by
  cases o with
  | none =>
    refine ⟨[], Event.error typeErrorMsg, rfl, rfl, ?_, ?_, ?_⟩
    · intro e he
      cases he
    · simp only [List.nil_append, progressList, List.filterMap_cons,
        progressOf, List.filterMap_nil]
      exact List.Pairwise.nil
    · intro c hc
      simp only [List.nil_append, progressList, List.filterMap_cons,
        progressOf, List.filterMap_nil] at hc
      cases hc
  | some s =>
    rw [stream_suffix]
    by_cases hs : s.isEmpty = true
    · rw [if_pos hs]
      refine ⟨[Event.log "Error: No articles could be summarized" 50],
        Event.error "Failed to summarize articles", rfl, rfl, ?_, ?_, ?_⟩
      · intro e he
        simp only [List.mem_cons, List.not_mem_nil, or_false] at he
        subst he
        rfl
      · simp only [progressList, List.filterMap_cons, progressOf,
          List.filterMap_nil, List.cons_append, List.nil_append]
        decide
      · simp only [progressList, List.filterMap_cons, progressOf,
          List.filterMap_nil, List.cons_append, List.nil_append]
        decide
    · rw [if_neg hs]
      by_cases hscript : generate_script current_date s = ""
      · rw [if_pos hscript]
        refine ⟨[Event.log ("✓ Successfully summarized " ++
            toString s.length ++ " articles") 55,
          Event.log "Step 3: Generating professional news script..." 60,
          Event.log "Error: Failed to generate script" 60],
          Event.error "Failed to generate script", rfl, rfl, ?_, ?_, ?_⟩
        · intro e he
          simp only [List.mem_cons, List.not_mem_nil, or_false] at he
          rcases he with rfl | rfl | rfl <;> rfl
        · simp only [progressList, List.filterMap_cons, progressOf,
            List.filterMap_nil, List.cons_append, List.nil_append]
          decide
        · simp only [progressList, List.filterMap_cons, progressOf,
            List.filterMap_nil, List.cons_append, List.nil_append]
          decide
      · rw [if_neg hscript]
        cases hv : generate_video createResp poll true 300 with
        | error e =>
          rw [render_tail]
          refine ⟨[Event.log ("✓ Successfully summarized " ++
              toString s.length ++ " articles") 55,
            Event.log "Step 3: Generating professional news script..." 60,
            Event.log ("✓ Generated script with " ++
              toString (countWords (generate_script current_date s)) ++
              " words") 70,
            Event.log
              "Step 4: Creating avatar video (this may take a moment)..."
              75],
            Event.error (pyMsg e), rfl, rfl, ?_, ?_, ?_⟩
          · intro ev he
            simp only [List.mem_cons, List.not_mem_nil, or_false] at he
            rcases he with rfl | rfl | rfl | rfl <;> rfl
          · simp only [progressList, List.filterMap_cons, progressOf,
              List.filterMap_nil, List.cons_append, List.nil_append]
            decide
          · simp only [progressList, List.filterMap_cons, progressOf,
              List.filterMap_nil, List.cons_append, List.nil_append]
            decide
        | ok u =>
          rw [render_tail]
          by_cases hu : u = ""
          · rw [if_pos hu]
            refine ⟨[Event.log ("✓ Successfully summarized " ++
                toString s.length ++ " articles") 55,
              Event.log
                "Step 3: Generating professional news script..." 60,
              Event.log ("✓ Generated script with " ++
                toString (countWords (generate_script current_date s)) ++
                " words") 70,
              Event.log
                "Step 4: Creating avatar video (this may take a moment)..."
                75,
              Event.log "Error: Failed to generate avatar video" 75],
              Event.error "Failed to generate avatar video",
              rfl, rfl, ?_, ?_, ?_⟩
            · intro ev he
              simp only [List.mem_cons, List.not_mem_nil, or_false] at he
              rcases he with rfl | rfl | rfl | rfl | rfl <;> rfl
            · simp only [progressList, List.filterMap_cons, progressOf,
                List.filterMap_nil, List.cons_append, List.nil_append]
              decide
            · simp only [progressList, List.filterMap_cons, progressOf,
                List.filterMap_nil, List.cons_append, List.nil_append]
              decide
          · rw [if_neg hu]
            refine ⟨[Event.log ("✓ Successfully summarized " ++
                toString s.length ++ " articles") 55,
              Event.log
                "Step 3: Generating professional news script..." 60,
              Event.log ("✓ Generated script with " ++
                toString (countWords (generate_script current_date s)) ++
                " words") 70,
              Event.log
                "Step 4: Creating avatar video (this may take a moment)..."
                75,
              Event.log "✓ Avatar video generated successfully!" 95],
              Event.complete "success" (generate_script current_date s) u
                s generated_at 100,
              rfl, rfl, ?_, ?_, ?_⟩
            · intro ev he
              simp only [List.mem_cons, List.not_mem_nil, or_false] at he
              rcases he with rfl | rfl | rfl | rfl | rfl <;> rfl
            · simp only [progressList, List.filterMap_cons, progressOf,
                List.filterMap_nil, List.cons_append, List.nil_append]
              decide
            · simp only [progressList, List.filterMap_cons, progressOf,
                List.filterMap_nil, List.cons_append, List.nil_append]
              decide

-- Helper: a stream of the generator's shape — four stage logs at
-- progresses 0/10/25/30, the loop events, then non-terminal events at
-- progress at least 50 closed by one terminal event — has
-- non-decreasing progresses and exactly one terminal event, at the end.
theorem branch_props (m0 m1 m2 m3 : String) (loopEvs sufInit : List Event)
    (term : Event)
    (hloopNT : ∀ e ∈ loopEvs, isTerminalEvent e = false)
    (hloopP : List.Pairwise (· ≤ ·) (progressList loopEvs))
    (hlo : ∀ b ∈ progressList loopEvs, 30 ≤ b)
    (hhi : ∀ b ∈ progressList loopEvs, b ≤ 50)
    (hsufNT : ∀ e ∈ sufInit, isTerminalEvent e = false)
    (hsufP : List.Pairwise (· ≤ ·) (progressList (sufInit ++ [term])))
    (hsufLo : ∀ c ∈ progressList (sufInit ++ [term]), 50 ≤ c)
    (htermT : isTerminalEvent term = true) :
    List.Pairwise (· ≤ ·) (progressList
      (([Event.log m0 0, Event.log m1 10, Event.log m2 25,
        Event.log m3 30] ++ loopEvs) ++ (sufInit ++ [term]))) ∧
    ((([Event.log m0 0, Event.log m1 10, Event.log m2 25,
        Event.log m3 30] ++ loopEvs) ++ (sufInit ++ [term])).getLast? =
      some term ∧ isTerminalEvent term = true) ∧
    ((([Event.log m0 0, Event.log m1 10, Event.log m2 25,
        Event.log m3 30] ++ loopEvs) ++ (sufInit ++ [term])).filter
      (fun e => isTerminalEvent e)).length = 1 := by
  refine ⟨?_, ⟨?_, htermT⟩, ?_⟩
  · have hpl : progressList
        (([Event.log m0 0, Event.log m1 10, Event.log m2 25,
          Event.log m3 30] ++ loopEvs) ++ (sufInit ++ [term])) =
        0 :: 10 :: 25 :: 30 ::
          (progressList loopEvs ++ progressList (sufInit ++ [term])) := by
      simp [progressList, List.filterMap_append, progressOf]
    rw [hpl]
    exact pairwise_branch _ _ hloopP hlo hhi hsufP hsufLo
  · rw [← List.append_assoc]
    exact List.getLast?_concat _
  · have hfl : loopEvs.filter (fun e => isTerminalEvent e) = [] :=
      List.filter_eq_nil_iff.mpr (fun e he => by simp [hloopNT e he])
    have hfs : sufInit.filter (fun e => isTerminalEvent e) = [] :=
      List.filter_eq_nil_iff.mpr (fun e he => by simp [hsufNT e he])
    have hfp : ([Event.log m0 0, Event.log m1 10, Event.log m2 25,
        Event.log m3 30]).filter (fun e => isTerminalEvent e) = [] := by
      simp [isTerminalEvent]
    have hft : ([term]).filter (fun e => isTerminalEvent e) = [term] := by
      simp [List.filter_cons, htermT]
    rw [List.filter_append, List.filter_append, List.filter_append,
      hfp, hfl, hfs, hft]
    rfl

/-- C2: for every run of the streaming endpoint, the emitted `progress`
values are monotonically non-decreasing, the final emitted event is
terminal — a `complete` or an `error` event — and it is the only
terminal event in the stream (so exactly one of `complete`/`error` is
emitted, and nothing follows it). -/
theorem C2_progressive_stream :
    ∀ (sources : List (List (Except String RawArticle)))
      (summarize : RawArticle → Except String String)
      (createResp : HttpResult) (poll : Nat → PollOutcome)
      (current_date generated_at : String),
      List.Pairwise (· ≤ ·) (progressList
        (event_generator sources summarize createResp poll current_date
          generated_at)) ∧
      (∃ e, (event_generator sources summarize createResp poll
          current_date generated_at).getLast? = some e ∧
        isTerminalEvent e = true) ∧
      ((event_generator sources summarize createResp poll current_date
          generated_at).filter (fun e => isTerminalEvent e)).length = 1 := by
  intro sources summarize createResp poll current_date generated_at
  have hlen5 : (scrape_articles sources 5).length ≤ 5 :=
    (scrape_articles_bound_valid sources 5).1
  have hNT := summarize_events_log (scrape_articles sources 5).length
    summarize (scrape_articles sources 5) 0
  have hProg := summarize_events_progress (scrape_articles sources 5).length
    summarize (scrape_articles sources 5) 0
  have h2lo : ∀ b ∈ progressList (summarize_events
      (scrape_articles sources 5).length summarize
      (scrape_articles sources 5) 0).1, 30 ≤ b := by
    intro b hb
    have := (hProg.2 b hb).1
    omega
  have h2hi : ∀ b ∈ progressList (summarize_events
      (scrape_articles sources 5).length summarize
      (scrape_articles sources 5) 0).1, b ≤ 50 := by
    intro b hb
    have := (hProg.2 b hb).2
    omega
  rw [event_generator]
  by_cases hemp : (scrape_articles sources 5).isEmpty = true
  · rw [if_pos hemp]
    refine ⟨?_, ⟨Event.error "Failed to scrape articles", rfl, rfl⟩, ?_⟩
    · simp only [progressList, List.filterMap_cons, progressOf,
        List.filterMap_nil]
      decide
    · simp [isTerminalEvent]
  · rw [if_neg hemp]
    obtain ⟨sufInit, term, hseq, htermT, hsufNT, hsufP, hsufLo⟩ :=
      stream_suffix_split createResp poll current_date generated_at
        (summarize_events (scrape_articles sources 5).length summarize
          (scrape_articles sources 5) 0).2
    simp only []
    rw [hseq]
    refine ⟨?_, ⟨term, ?_, htermT⟩, ?_⟩
    · exact (branch_props _ _ _ _ _ _ _ hNT hProg.1 h2lo h2hi hsufNT
        hsufP hsufLo htermT).1
    · exact (branch_props _ _ _ _ _ _ _ hNT hProg.1 h2lo h2hi hsufNT
        hsufP hsufLo htermT).2.1.1
    · exact (branch_props _ _ _ _ _ _ _ hNT hProg.1 h2lo h2hi hsufNT
        hsufP hsufLo htermT).2.2
